import Mathlib

/-!
Shallow embedding of the protocol engine of the hakuhyo terminal chat client:
the Discord gateway session state machine (src/discord/gateway.rs,
src/discord/models.rs) and the remote-auth device-pairing handshake
(src/auth.rs).  Wire payloads are modeled at the JSON-value level
(serde_json::Value); the cryptographic primitives of the handshake are
parameters of the model, since they are external library calls.
-/

namespace Hakuhyo

/-- JSON values as handled by the wire codec (serde_json::Value).  Numbers are
modeled as integers: every numeric field the protocol engine reads or writes
(`op`, `s`, the `d` of a heartbeat, `heartbeat_interval`, channel `type`) is
an integer field. -/
inductive Json where
  | null
  | bool (b : Bool)
  | num (n : Int)
  | str (s : String)
  | arr (elems : List Json)
  | obj (fields : List (String × Json))

/-- Lookup of a key in a JSON object's field list (first occurrence). -/
def lookupField : List (String × Json) → String → Option Json
  | [], _ => none
  | (k, v) :: rest, key => if k = key then some v else lookupField rest key

/-- serde_json Value::get on an object; `none` on a non-object or absent key. -/
def Json.get : Json → String → Option Json
  | .obj fields, key => lookupField fields key
  | _, _ => none

/-- serde_json Value::as_str. -/
def Json.asStr : Json → Option String
  | .str s => some s
  | _ => none

/-- serde_json Value::as_u64: an integer in the u64 range. -/
def Json.asU64 : Json → Option Nat
  | .num n => if 0 ≤ n ∧ n < 2 ^ 64 then some n.toNat else none
  | _ => none

/-- serde_json Value::as_array. -/
def Json.asArr : Json → Option (List Json)
  | .arr elems => some elems
  | _ => none

/-- serde deserialization of a u8 field. -/
def parseU8 : Json → Option Nat
  | .num n => if 0 ≤ n ∧ n < 2 ^ 8 then some n.toNat else none
  | _ => none

/-- serde deserialization of a u64 field. -/
def parseU64 : Json → Option Nat
  | .num n => if 0 ≤ n ∧ n < 2 ^ 64 then some n.toNat else none
  | _ => none

/-- serde deserialization of an `Option<u64>` field from an optional JSON
value: an absent or null field is `none`; a present non-null value must be a
u64 integer or the whole record fails. -/
def parseOptU64 : Option Json → Option (Option Nat)
  | none => some none
  | some .null => some none
  | some (.num n) => if 0 ≤ n ∧ n < 2 ^ 64 then some (some n.toNat) else none
  | some _ => none

/-- serde deserialization of an `Option<String>` field (also used for
`#[serde(default)] Option<String>`): absent or null is `none`; a present
non-null value must be a string. -/
def parseOptStr : Option Json → Option (Option String)
  | none => some none
  | some .null => some none
  | some (.str s) => some (some s)
  | some _ => none

/-- serde deserialization of an `Option<serde_json::Value>` field: absent and
null both give `none`; this never fails. -/
def parseOptVal : Option Json → Option Json
  | none => none
  | some .null => none
  | some v => some v

/-- Parse each element of a JSON array with `f`; any element failure fails the
whole list, as serde does for `Vec<T>`. -/
def traverseParse (f : Json → Option α) : List Json → Option (List α)
  | [] => some []
  | x :: xs => do
    let a ← f x
    let rest ← traverseParse f xs
    pure (a :: rest)

/-! Gateway data model (src/discord/models.rs). -/

/-- Gateway opcode constants (models.rs `pub mod opcodes`). -/
def opcodeDispatch : Nat := 0

def opcodeHeartbeat : Nat := 1

def opcodeIdentify : Nat := 2

def opcodeHello : Nat := 10

def opcodeHeartbeatAck : Nat := 11

/-- models::GatewayPayload: the generic gateway envelope. -/
structure GatewayPayload where
  op : Nat
  d : Option Json
  s : Option Nat
  t : Option String

/-- serde Deserialize for GatewayPayload: `op` is a required u8; `d` is an
optional opaque value; `s` an optional u64; `t` an optional string. -/
def parseGatewayPayload (j : Json) : Option GatewayPayload :=
  match j with
  | .obj _ => do
    let opJ ← j.get "op"
    let op ← parseU8 opJ
    let d := parseOptVal (j.get "d")
    let s ← parseOptU64 (j.get "s")
    let t ← parseOptStr (j.get "t")
    pure ⟨op, d, s, t⟩
  | _ => none

/-- models::HelloData. -/
structure HelloData where
  heartbeat_interval : Nat
deriving Repr, DecidableEq

/-- serde Deserialize for HelloData: `heartbeat_interval` is a required u64. -/
def parseHelloData (j : Json) : Option HelloData :=
  match j with
  | .obj _ => do
    let v ← j.get "heartbeat_interval"
    let n ← parseU64 v
    pure ⟨n⟩
  | _ => none

/-- models::User. -/
structure User where
  id : String
  username : String
  discriminator : String
  avatar : Option String
deriving Repr, DecidableEq

/-- serde Deserialize for User: `id`, `username`, `discriminator` required
strings; `avatar` optional with default. -/
def parseUser (j : Json) : Option User :=
  match j with
  | .obj _ => do
    let id ← (j.get "id").bind Json.asStr
    let username ← (j.get "username").bind Json.asStr
    let discriminator ← (j.get "discriminator").bind Json.asStr
    let avatar ← parseOptStr (j.get "avatar")
    pure ⟨id, username, discriminator, avatar⟩
  | _ => none

/-- models::Attachment. -/
structure Attachment where
  id : String
  filename : String
  content_type : Option String
  size : Option Nat
  url : Option String
  width : Option Nat
  height : Option Nat
deriving Repr, DecidableEq

/-- serde deserialization of a `#[serde(default)] Option<u32>` field. -/
def parseOptU32 : Option Json → Option (Option Nat)
  | none => some none
  | some .null => some none
  | some (.num n) => if 0 ≤ n ∧ n < 2 ^ 32 then some (some n.toNat) else none
  | some _ => none

/-- serde Deserialize for Attachment: `id` and `filename` required strings,
the rest optional with defaults. -/
def parseAttachment (j : Json) : Option Attachment :=
  match j with
  | .obj _ => do
    let id ← (j.get "id").bind Json.asStr
    let filename ← (j.get "filename").bind Json.asStr
    let content_type ← parseOptStr (j.get "content_type")
    let size ← parseOptU64 (j.get "size")
    let url ← parseOptStr (j.get "url")
    let width ← parseOptU32 (j.get "width")
    let height ← parseOptU32 (j.get "height")
    pure ⟨id, filename, content_type, size, url, width, height⟩
  | _ => none

/-- models::Message. -/
structure Message where
  id : String
  channel_id : String
  author : User
  content : String
  timestamp : String
  edited_timestamp : Option String
  attachments : List Attachment
deriving Repr, DecidableEq

/-- serde deserialization of a `#[serde(default)] Vec<T>` field: absent gives
the empty vector; present must be an array of parseable elements. -/
def parseVecDefault (f : Json → Option α) : Option Json → Option (List α)
  | none => some []
  | some (.arr xs) => traverseParse f xs
  | some _ => none

/-- serde Deserialize for Message: `id`, `channel_id`, `author`, `content`,
`timestamp` required; `edited_timestamp` and `attachments` defaulted. -/
def parseMessage (j : Json) : Option Message :=
  match j with
  | .obj _ => do
    let id ← (j.get "id").bind Json.asStr
    let channel_id ← (j.get "channel_id").bind Json.asStr
    let authorJ ← j.get "author"
    let author ← parseUser authorJ
    let content ← (j.get "content").bind Json.asStr
    let timestamp ← (j.get "timestamp").bind Json.asStr
    let edited_timestamp ← parseOptStr (j.get "edited_timestamp")
    let attachments ← parseVecDefault parseAttachment (j.get "attachments")
    pure ⟨id, channel_id, author, content, timestamp, edited_timestamp, attachments⟩
  | _ => none

/-- models::Channel. `channel_type` is the field serde-renamed from "type". -/
structure Channel where
  id : String
  channel_type : Nat
  guild_id : Option String
  name : Option String
  topic : Option String
  recipients : Option (List User)
  recipient_ids : Option (List String)
deriving Repr, DecidableEq

/-- serde deserialization of a `#[serde(default)] Option<Vec<T>>` field. -/
def parseOptVec (f : Json → Option α) : Option Json → Option (Option (List α))
  | none => some none
  | some .null => some none
  | some (.arr xs) => (traverseParse f xs).map some
  | some _ => none

/-- serde Deserialize for Channel: `id` and `type` required, the rest
optional with defaults. -/
def parseChannel (j : Json) : Option Channel :=
  match j with
  | .obj _ => do
    let id ← (j.get "id").bind Json.asStr
    let typeJ ← j.get "type"
    let channel_type ← parseU8 typeJ
    let guild_id ← parseOptStr (j.get "guild_id")
    let name ← parseOptStr (j.get "name")
    let topic ← parseOptStr (j.get "topic")
    let recipients ← parseOptVec parseUser (j.get "recipients")
    let recipient_ids ← parseOptVec Json.asStr (j.get "recipient_ids")
    pure ⟨id, channel_type, guild_id, name, topic, recipients, recipient_ids⟩
  | _ => none

/-- models::Guild, as built field-by-field in gateway.rs. -/
structure Guild where
  id : String
  name : String
  icon : Option String
  owner_id : String
deriving Repr, DecidableEq

/-! Gateway session state machine (src/discord/gateway.rs). -/

/-- gateway.rs GatewayEvent: the typed domain events handed to the event
handler. -/
inductive GatewayEvent where
  | ready (data : Json)
  | guildCreate (guild : Guild) (channels : List Channel)
  | messageCreate (message : Message)
  | messageUpdate (message : Message)
  | messageDelete (id : String) (channel_id : String)

/-- The mutable session context shared between the read loop and the
heartbeat task: `session_id` (the local variable of `run`) and
`last_sequence` (the RwLock cell). -/
structure SessionContext where
  session_id : Option String
  last_sequence : Option Nat
deriving Repr, DecidableEq

/-- The fresh context at connect time (gateway.rs `connect`). -/
def initialContext : SessionContext := ⟨none, none⟩

/-- The dispatch-type tags recognized by handle_message. -/
def isKnownDispatchType (ty : String) : Bool :=
  ty == "READY" || ty == "GUILD_CREATE" || ty == "MESSAGE_CREATE" ||
    ty == "MESSAGE_UPDATE" || ty == "MESSAGE_DELETE"

/-- The channel-list construction of the GUILD_CREATE arm of handle_message:
each element that deserializes as a Channel gets the guild's id when its own
`guild_id` is absent, and is kept only when its type is 0 (text channel). -/
def buildChannelList (guild_id : String) : List Json → List Channel
  | [] => []
  | cj :: rest =>
    match parseChannel cj with
    | none => buildChannelList guild_id rest
    | some c =>
      let c := if c.guild_id.isNone then { c with guild_id := some guild_id } else c
      if c.channel_type = 0 then c :: buildChannelList guild_id rest
      else buildChannelList guild_id rest

/-- The dispatch arm of handle_message: decode the payload `data` by the type
tag into a typed event.  READY sets `session_id` before the user field is
decoded; its guild/channel extraction loop only writes logs and is omitted.
A decode failure on any arm drops the frame (`?` on Option / `.ok()?`). -/
def handleDispatch (event_type : String) (data : Json) (ctx : SessionContext) :
    SessionContext × Option GatewayEvent :=
  if event_type = "READY" then
    match (data.get "session_id").bind Json.asStr with
    | none => (ctx, none)
    | some sid =>
      let ctx := { ctx with session_id := some sid }
      match (data.get "user").bind parseUser with
      | none => (ctx, none)
      | some _user => (ctx, some (.ready data))
  else if event_type = "GUILD_CREATE" then
    match (data.get "id").bind Json.asStr with
    | none => (ctx, none)
    | some guild_id =>
      match (data.get "name").bind Json.asStr with
      | none => (ctx, none)
      | some guild_name =>
        match (data.get "owner_id").bind Json.asStr with
        | none => (ctx, none)
        | some owner_id =>
          let icon := (data.get "icon").bind Json.asStr
          let guild : Guild := ⟨guild_id, guild_name, icon, owner_id⟩
          match (data.get "channels").bind Json.asArr with
          | none => (ctx, none)
          | some channels =>
            (ctx, some (.guildCreate guild (buildChannelList guild_id channels)))
  else if event_type = "MESSAGE_CREATE" then
    match parseMessage data with
    | none => (ctx, none)
    | some message => (ctx, some (.messageCreate message))
  else if event_type = "MESSAGE_UPDATE" then
    match parseMessage data with
    | none => (ctx, none)
    | some message => (ctx, some (.messageUpdate message))
  else if event_type = "MESSAGE_DELETE" then
    match (data.get "id").bind Json.asStr with
    | none => (ctx, none)
    | some id =>
      match (data.get "channel_id").bind Json.asStr with
      | none => (ctx, none)
      | some channel_id => (ctx, some (.messageDelete id channel_id))
  else (ctx, none)

/-- gateway.rs handle_message, at the JSON-value level: a text frame that
fails to deserialize as GatewayPayload is dropped; `last_sequence` is updated
from `s` before the opcode is examined; only Dispatch frames can produce an
event, HeartbeatAck and every other opcode are ignored. -/
def handleMessage (text : Json) (ctx : SessionContext) :
    SessionContext × Option GatewayEvent :=
  match parseGatewayPayload text with
  | none => (ctx, none)
  | some payload =>
    let ctx :=
      match payload.s with
      | some seq => { ctx with last_sequence := some seq }
      | none => ctx
    if payload.op = opcodeDispatch then
      match payload.t with
      | none => (ctx, none)
      | some event_type =>
        match payload.d with
        | none => (ctx, none)
        | some data => handleDispatch event_type data ctx
    else
      (ctx, none)

/-- One item from the inbound half of the websocket stream, as seen by the
read loops: a text frame (already at the JSON-value level), a Close frame,
any other frame kind (binary/ping/pong), or a transport error item. -/
inductive WsItem where
  | text (j : Json)
  | close
  | other
  | errItem

/-- gateway.rs wait_for_hello: skip every non-text item (the
`if let Ok(Text)` silently drops Close frames and transport errors); a text
frame that fails to parse is a fatal parse error; the first opcode-10 frame
yields its heartbeat_interval; end of stream without a Hello is fatal. -/
def waitForHello : List WsItem → Except String Nat
  | [] => .error "Failed to receive Hello from Gateway"
  | .text j :: rest =>
    match parseGatewayPayload j with
    | none => .error "Failed to parse Hello payload"
    | some payload =>
      if payload.op = opcodeHello then
        match payload.d with
        | none => .error "Hello payload missing data"
        | some d =>
          match parseHelloData d with
          | none => .error "Failed to parse Hello data"
          | some data => .ok data.heartbeat_interval
      else waitForHello rest
  | .close :: rest => waitForHello rest
  | .other :: rest => waitForHello rest
  | .errItem :: rest => waitForHello rest

/-- The read loop of gateway.rs `run`: text frames go through handle_message
and emitted events are handed to the event handler; a Close frame or a
transport error breaks the loop; other frame kinds are ignored. -/
def runFrames : SessionContext → List WsItem → SessionContext × List GatewayEvent
  | ctx, [] => (ctx, [])
  | ctx, .text j :: rest =>
    let r := handleMessage j ctx
    let rec_ := runFrames r.1 rest
    (rec_.1, match r.2 with | some e => e :: rec_.2 | none => rec_.2)
  | ctx, .close :: _ => (ctx, [])
  | ctx, .errItem :: _ => (ctx, [])
  | ctx, .other :: rest => runFrames ctx rest

/-- The heartbeat frame built by heartbeat_loop:
`json!({"op": opcodes::HEARTBEAT, "d": seq})` — an absent sequence is
serialized as a literal JSON null, and no `s` or `t` field is emitted. -/
def heartbeatJson (seq : Option Nat) : Json :=
  .obj [("op", .num opcodeHeartbeat),
        ("d", match seq with | some n => .num n | none => .null)]

/-- Tick times of a `tokio::time::interval` with period `interval_ms`: the
first tick completes immediately (at time 0), which is why auth.rs line 85
discards one tick before its loop while gateway.rs heartbeat_loop does not. -/
def tokioIntervalTickTime (interval_ms n : Nat) : Nat := n * interval_ms

/-- Time of the n-th heartbeat sent by gateway.rs heartbeat_loop, which sends
on every tick of its interval with no initial skip. -/
def gatewayHeartbeatSendTime (interval_ms n : Nat) : Nat :=
  tokioIntervalTickTime interval_ms n

/-- Time of the n-th heartbeat sent by the auth.rs handshake loop, which
discards the first (immediate) tick before entering its select loop. -/
def handshakeHeartbeatSendTime (interval_ms n : Nat) : Nat :=
  tokioIntervalTickTime interval_ms (n + 1)

/-- Combined state of a Connected-phase session run: the shared context, the
liveness of the spawned heartbeat task (heartbeat_loop has not hit a send
failure), the liveness of the read loop (run has not returned), the
heartbeat frames delivered so far, and the events handed to the handler. -/
structure SessionRun where
  ctx : SessionContext
  hbAlive : Bool
  readOpen : Bool
  sentHeartbeats : List Json
  events : List GatewayEvent

/-- The Connected-phase state right after `run` spawns heartbeat_loop. -/
def initialRun : SessionRun := ⟨initialContext, true, true, [], []⟩

/-- One scheduler action of the Connected phase: a heartbeat timer tick
(with the environment's verdict on the send) or the arrival of one inbound
stream item. -/
inductive SessAct where
  | hbTick (sendOk : Bool)
  | inbound (w : WsItem)

/-- Whether an action belongs to the read loop rather than the heartbeat
task. -/
def isInboundAct : SessAct → Bool
  | .hbTick _ => false
  | .inbound _ => true

/-- Small-step semantics of the Connected phase.  A tick of a live heartbeat
task sends `{op:1, d: last_sequence}`; a failed send only breaks
heartbeat_loop (the task is spawned detached, so `run` is unaffected).  An
inbound item is consumed by the read loop while it is open: text frames go
through handle_message, Close frames and transport errors end the read loop
(`run` returns). -/
def sessStep (st : SessionRun) : SessAct → SessionRun
  | .hbTick sendOk =>
    if st.hbAlive then
      if sendOk then
        { st with sentHeartbeats :=
            st.sentHeartbeats ++ [heartbeatJson st.ctx.last_sequence] }
      else { st with hbAlive := false }
    else st
  | .inbound w =>
    if st.readOpen then
      match w with
      | .text j =>
        let r := handleMessage j st.ctx
        { st with
            ctx := r.1,
            events := st.events ++ (match r.2 with | some e => [e] | none => []) }
      | .close => { st with readOpen := false }
      | .errItem => { st with readOpen := false }
      | .other => st
    else st

/-- Run a Connected-phase schedule from a state. -/
def runTrace : SessionRun → List SessAct → SessionRun
  | st, [] => st
  | st, a :: rest => runTrace (sessStep st a) rest

/-! Remote-auth device-pairing handshake (src/auth.rs). -/

/-- auth.rs RemoteAuthMessage: `op` is a required string and the remaining
fields are flattened into `data`. -/
structure RemoteAuthMessage where
  op : String
  data : Json

/-- Remove every field with the given key (serde `flatten` captures the
fields not consumed by `op`). -/
def eraseField : List (String × Json) → String → List (String × Json)
  | [], _ => []
  | (k, v) :: rest, key =>
    if k = key then eraseField rest key else (k, v) :: eraseField rest key

/-- serde Deserialize for RemoteAuthMessage. -/
def parseRemoteAuthMessage (j : Json) : Option RemoteAuthMessage :=
  match j with
  | .obj fields => do
    let opJ ← j.get "op"
    let op ← opJ.asStr
    pure ⟨op, .obj (eraseField fields "op")⟩
  | _ => none

/-- The cryptographic and encoding primitives used by authenticate_with_qr,
as abstract parameters: RSA-OAEP(SHA-256) decryption under the fresh private
key, SHA-256, the two base64 alphabets, UTF-8 decoding, and the SPKI DER
export of the fresh public key.  Byte strings are lists of naturals. -/
structure CryptoPrims where
  b64decode : String → Option (List Nat)
  b64encodeStd : List Nat → String
  b64urlNoPad : List Nat → String
  rsaDecrypt : List Nat → Option (List Nat)
  sha256 : List Nat → List Nat
  utf8Decode : List Nat → Option String
  publicKeyDer : List Nat

/-- Failure modes of authenticate_with_qr; each constructor corresponds to
one distinct `bail!` / `.context(...)` site of auth.rs, so errors raised at
different sites are distinguishable values (anyhow errors with distinct
messages in the source). -/
inductive AuthErr where
  | helloParseFailed
  | expectedHello (got : String)
  | noHeartbeatInterval
  | wsError (e : String)
  | connectionClosed
  | parseFailed
  | noEncryptedNonce
  | nonceDecodeFailed
  | nonceDecryptFailed
  | proofSendFailed
  | noFingerprint
  | noTicket
  | exchangeRequestFailed
  | tokenResponseParseFailed
  | tokenDecodeFailed
  | tokenDecryptFailed
  | tokenUtf8Invalid
  | cancelled
  | noToken
deriving Repr, DecidableEq

/-- Outcome of the handshake: the decrypted credential, or a failure. -/
inductive AuthOutcome where
  | ok (token : String)
  | err (e : AuthErr)
deriving Repr, DecidableEq

/-- Failure modes of the ticket-for-token HTTP collaborator: the request
itself failing, or its body not parsing as `{encrypted_token}`. -/
inductive ExchangeErr where
  | requestFailed
  | badBody
deriving Repr, DecidableEq

/-- One ready source of the handshake's select loop: a heartbeat timer tick
(with the environment's verdict on the send), a received text frame (at the
JSON-value level, with the environment's verdict on any send this message
triggers), a transport error item, or the end of the stream. -/
inductive AuthIn where
  | hbTick (sendOk : Bool)
  | msgText (j : Json) (sendOk : Bool)
  | msgErr (e : String)
  | closed

/-- Observable state of the handshake loop: frames delivered to the server,
tickets passed to the HTTP collaborator, and pairing URLs displayed. -/
structure AuthLoopState where
  sent : List Json
  calls : List String
  displayed : List String

/-- The heartbeat frame of the handshake loop: `json!({"op": "heartbeat"})`. -/
def authHeartbeatJson : Json := .obj [("op", .str "heartbeat")]

/-- The init frame: `json!({"op": "init", "encoded_public_key": ...})` with
the SPKI DER public key in standard padded base64. -/
def initMessage (prims : CryptoPrims) : Json :=
  .obj [("op", .str "init"),
        ("encoded_public_key", .str (prims.b64encodeStd prims.publicKeyDer))]

/-- The loop state right after the init message has been sent. -/
def postInitState (prims : CryptoPrims) : AuthLoopState :=
  ⟨[initMessage prims], [], []⟩

/-- The "nonce_proof" arm of the handshake's select loop: read the
encrypted_nonce string field, base64-decode it, OAEP-decrypt it with the
private key, hash the plaintext with SHA-256, and reply with a nonce_proof
whose proof field is the digest in base64url without padding.  `.inl`
continues the loop, `.inr` finishes it. -/
def nonceProofStep (prims : CryptoPrims) (st : AuthLoopState) (sendOk : Bool)
    (data : Json) : AuthLoopState ⊕ (AuthLoopState × AuthOutcome) :=
  match (data.get "encrypted_nonce").bind Json.asStr with
  | none => .inr (st, .err .noEncryptedNonce)
  | some encrypted_nonce =>
    match prims.b64decode encrypted_nonce with
    | none => .inr (st, .err .nonceDecodeFailed)
    | some encrypted_bytes =>
      match prims.rsaDecrypt encrypted_bytes with
      | none => .inr (st, .err .nonceDecryptFailed)
      | some decrypted_nonce =>
        let proof := prims.b64urlNoPad (prims.sha256 decrypted_nonce)
        let proofMsg := Json.obj [("op", .str "nonce_proof"), ("proof", .str proof)]
        if sendOk then .inl { st with sent := st.sent ++ [proofMsg] }
        else .inr (st, .err .proofSendFailed)

/-- The "pending_remote_init" arm: read the fingerprint and display the
pairing URL built from the fixed template. -/
def pendingRemoteInitStep (st : AuthLoopState) (data : Json) :
    AuthLoopState ⊕ (AuthLoopState × AuthOutcome) :=
  match (data.get "fingerprint").bind Json.asStr with
  | none => .inr (st, .err .noFingerprint)
  | some fingerprint =>
    let qr_url := "https://discord.com/ra/" ++ fingerprint
    .inl { st with displayed := st.displayed ++ [qr_url] }

/-- The "pending_login" arm: read the ticket, exchange it for an
encrypted_token via the HTTP collaborator, base64-decode and OAEP-decrypt
the token, decode it as UTF-8, and finish with the credential. -/
def pendingLoginStep (prims : CryptoPrims)
    (exch : String → Except ExchangeErr String) (st : AuthLoopState)
    (data : Json) : AuthLoopState ⊕ (AuthLoopState × AuthOutcome) :=
  match (data.get "ticket").bind Json.asStr with
  | none => .inr (st, .err .noTicket)
  | some ticket =>
    let st := { st with calls := st.calls ++ [ticket] }
    match exch ticket with
    | .error .requestFailed => .inr (st, .err .exchangeRequestFailed)
    | .error .badBody => .inr (st, .err .tokenResponseParseFailed)
    | .ok encrypted_token =>
      match prims.b64decode encrypted_token with
      | none => .inr (st, .err .tokenDecodeFailed)
      | some encrypted_token_bytes =>
        match prims.rsaDecrypt encrypted_token_bytes with
        | none => .inr (st, .err .tokenDecryptFailed)
        | some decrypted_token =>
          match prims.utf8Decode decrypted_token with
          | none => .inr (st, .err .tokenUtf8Invalid)
          | some token => .inr (st, .ok token)

/-- Processing of one parsed RemoteAuthMessage by the match of the
handshake's select loop, in source order: nonce_proof, pending_remote_init,
pending_ticket (informational), pending_login, cancel (bail), and
heartbeat_ack / unknown tags (ignored). -/
def authMsgStep (prims : CryptoPrims) (exch : String → Except ExchangeErr String)
    (st : AuthLoopState) (sendOk : Bool) (m : RemoteAuthMessage) :
    AuthLoopState ⊕ (AuthLoopState × AuthOutcome) :=
  if m.op = "nonce_proof" then nonceProofStep prims st sendOk m.data
  else if m.op = "pending_remote_init" then pendingRemoteInitStep st m.data
  else if m.op = "pending_ticket" then .inl st
  else if m.op = "pending_login" then pendingLoginStep prims exch st m.data
  else if m.op = "cancel" then .inr (st, .err .cancelled)
  else if m.op = "heartbeat_ack" then .inl st
  else .inl st

/-- One iteration of the handshake's select loop: a heartbeat tick sends
`{op:"heartbeat"}` (a send failure breaks the loop, which then bails with
"Failed to get token" since no token was obtained); a transport error or the
end of the stream bails; a text frame is parsed as RemoteAuthMessage (a parse
failure is propagated by `?`) and handled by `authMsgStep`. -/
def authStep (prims : CryptoPrims) (exch : String → Except ExchangeErr String)
    (st : AuthLoopState) : AuthIn → AuthLoopState ⊕ (AuthLoopState × AuthOutcome)
  | .hbTick sendOk =>
    if sendOk then .inl { st with sent := st.sent ++ [authHeartbeatJson] }
    else .inr (st, .err .noToken)
  | .msgErr e => .inr (st, .err (.wsError e))
  | .closed => .inr (st, .err .connectionClosed)
  | .msgText j sendOk =>
    match parseRemoteAuthMessage j with
    | none => .inr (st, .err .parseFailed)
    | some m => authMsgStep prims exch st sendOk m

/-- The handshake's select loop over a schedule of ready sources.  A `none`
outcome means the scripted schedule ran out while the loop was still
waiting. -/
def runAuthLoop (prims : CryptoPrims) (exch : String → Except ExchangeErr String) :
    AuthLoopState → List AuthIn → AuthLoopState × Option AuthOutcome
  | st, [] => (st, none)
  | st, i :: rest =>
    match authStep prims exch st i with
    | .inl st2 => runAuthLoop prims exch st2 rest
    | .inr (st2, out) => (st2, some out)

/-- The hello phase of authenticate_with_qr: the first frame must parse as a
message whose op is "hello" carrying an integer heartbeat_interval. -/
def helloPhase (helloFrame : Json) : Except AuthErr Nat :=
  match parseRemoteAuthMessage helloFrame with
  | none => .error .helloParseFailed
  | some hello =>
    if hello.op = "hello" then
      match (hello.data.get "heartbeat_interval").bind Json.asU64 with
      | none => .error .noHeartbeatInterval
      | some heartbeat_interval => .ok heartbeat_interval
    else .error (.expectedHello hello.op)

/-- auth.rs authenticate_with_qr after the transport is open: parse the first
frame as the hello message, generate the keypair, send the init message with
the base64 SPKI public key, then run the select loop. -/
def authenticateWithQr (prims : CryptoPrims)
    (exch : String → Except ExchangeErr String) (helloFrame : Json)
    (ins : List AuthIn) : AuthLoopState × Option AuthOutcome :=
  match helloPhase helloFrame with
  | .error e => (⟨[], [], []⟩, some (.err e))
  | .ok _heartbeat_interval => runAuthLoop prims exch (postInitState prims) ins

/-- Whether a schedule item is a text frame whose parsed op tag is
"cancel". -/
def isCancelFrame : AuthIn → Bool
  | .msgText j _ =>
    match parseRemoteAuthMessage j with
    | some m => m.op = "cancel"
    | none => false
  | _ => false

/-- The cancel frame of the wire protocol. -/
def cancelJson : Json := .obj [("op", .str "cancel")]

/-! Concrete wire values used to instantiate the theorems. -/

/-- A valid MESSAGE_CREATE dispatch frame. -/
def mcJson : Json :=
  .obj [("op", .num 0), ("t", .str "MESSAGE_CREATE"), ("s", .num 2),
        ("d", .obj [("id", .str "m1"), ("channel_id", .str "c1"),
                    ("author", .obj [("id", .str "u1"), ("username", .str "alice"),
                                     ("discriminator", .str "0")]),
                    ("content", .str "hi"), ("timestamp", .str "t0")])]

/-- The typed message carried by `mcJson`. -/
def mcMessage : Message := ⟨"m1", "c1", ⟨"u1", "alice", "0", none⟩, "hi", "t0", none, []⟩

/-- A dispatch frame with an unrecognized type tag that carries a sequence
number. -/
def unknownDispatchJson : Json :=
  .obj [("op", .num 0), ("t", .str "TYPING_START"), ("s", .num 7), ("d", .obj [])]

/-- A heartbeat-ack frame carrying a sequence number. -/
def hbAckJson : Json := .obj [("op", .num 11), ("s", .num 3)]

/-- The envelope parsed from `hbAckJson`. -/
def hbAckPayload : GatewayPayload := ⟨11, none, some 3, none⟩

/-- The spec's malformed MESSAGE_CREATE dispatch: the payload lacks the
required author field. -/
def malformedDispatchJson : Json :=
  .obj [("op", .num 0), ("t", .str "MESSAGE_CREATE"),
        ("d", .obj [("channel_id", .str "1")])]

/-- The envelope parsed from `malformedDispatchJson`. -/
def malformedDispatchPayload : GatewayPayload :=
  ⟨0, some (.obj [("channel_id", .str "1")]), none, some "MESSAGE_CREATE"⟩

/-- A Hello frame with heartbeat_interval 41250. -/
def helloFrameJson : Json :=
  .obj [("op", .num 10), ("d", .obj [("heartbeat_interval", .num 41250)])]

/-- The envelope parsed from `helloFrameJson`. -/
def helloFramePayload : GatewayPayload :=
  ⟨10, some (.obj [("heartbeat_interval", .num 41250)]), none, none⟩

/-- A well-formed non-Hello frame (a heartbeat-ack without fields). -/
def nonHelloJson : Json := .obj [("op", .num 11)]

/-- A session state whose heartbeat task has already hit a send failure. -/
def deadHeartbeatRun : SessionRun := ⟨initialContext, false, true, [], []⟩

/-- Concrete crypto primitives for witnesses: base64 decoding maps a string
to its length as a one-byte message, decryption and hashing are the
identity, encodings print the byte count, and UTF-8 decoding yields the
scripted credential. -/
def cPrims : CryptoPrims :=
  { b64decode := fun s => some [s.length]
    b64encodeStd := fun bs => toString bs.length
    b64urlNoPad := fun bs => toString bs.length
    rsaDecrypt := fun bs => some bs
    sha256 := fun bs => bs
    utf8Decode := fun _ => some "secret-credential"
    publicKeyDer := [1, 2, 3] }

/-- Concrete ticket-for-token collaborator for witnesses. -/
def cExch : String → Except ExchangeErr String :=
  fun t => if t = "T1" then .ok "ENC" else .error .requestFailed

/-- The handshake hello message of the scripted run. -/
def helloAuthJson : Json := .obj [("op", .str "hello"), ("heartbeat_interval", .num 41250)]

/-- The scripted server messages of the happy-path run. -/
def happyPathIns : List AuthIn :=
  [ .msgText (.obj [("op", .str "nonce_proof"), ("encrypted_nonce", .str "CT")]) true,
    .msgText (.obj [("op", .str "pending_remote_init"), ("fingerprint", .str "abc123")]) true,
    .msgText (.obj [("op", .str "pending_login"), ("ticket", .str "T1")]) true ]

/-- A GUILD_CREATE payload with a text channel lacking guild_id, a voice
channel, a text channel with its own guild_id, and one unparseable entry. -/
def guildCreateData : Json :=
  .obj [("id", .str "g1"), ("name", .str "Guild"), ("owner_id", .str "o1"),
        ("channels", .arr
          [.obj [("id", .str "c1"), ("type", .num 0), ("name", .str "general")],
           .obj [("id", .str "c2"), ("type", .num 2)],
           .obj [("id", .str "c3"), ("type", .num 0), ("guild_id", .str "gX")],
           .str "nope"])]

/-- The channel entries of `guildCreateData`. -/
def guildCreateChans : List Json :=
  [.obj [("id", .str "c1"), ("type", .num 0), ("name", .str "general")],
   .obj [("id", .str "c2"), ("type", .num 2)],
   .obj [("id", .str "c3"), ("type", .num 0), ("guild_id", .str "gX")],
   .str "nope"]

/-! Helper lemmas. -/

/-- An unrecognized dispatch type tag leaves the context unchanged and emits
nothing. -/
lemma handleDispatch_unknown (ty : String) (d : Json) (ctx : SessionContext)
    (h : isKnownDispatchType ty = false) :
    handleDispatch ty d ctx = (ctx, none) := by
  unfold handleDispatch
  simp only [isKnownDispatchType, Bool.or_eq_false_iff, beq_eq_false_iff_ne, ne_eq] at h
  obtain ⟨⟨⟨⟨h1, h2⟩, h3⟩, h4⟩, h5⟩ := h
  simp [h1, h2, h3, h4, h5]

/-! C6: heartbeat frame shape round-trip. -/

/-- C6: for every value of the shared sequence cell, the encoded heartbeat
frame decodes to exactly `{op: 1, d: <that value>}` with no `s` and no `t`
field, and with the cell empty the emitted `d` field is literally JSON
null rather than omitted. -/
theorem heartbeat_frame_shape_roundtrip (seq : Option Nat) :
    parseGatewayPayload (heartbeatJson seq) =
      some ⟨opcodeHeartbeat, seq.map (fun n => Json.num n), none, none⟩ ∧
    (heartbeatJson seq).get "s" = none ∧
    (heartbeatJson seq).get "t" = none ∧
    (heartbeatJson none).get "d" = some Json.null := by
  cases seq <;>
    simp [heartbeatJson, parseGatewayPayload, Json.get, lookupField, parseU8,
      parseOptVal, parseOptU64, parseOptStr, opcodeHeartbeat]

/-! C7: session heartbeat cadence. -/

/-- C7 counterexample: the gateway heartbeat loop does not skip its first
tick — its first heartbeat goes out immediately (time 0), before one full
heartbeat_interval (41250 ms) has elapsed; only the handshake loop of
auth.rs discards the first tick. -/
theorem gateway_first_heartbeat_not_delayed :
    gatewayHeartbeatSendTime 41250 0 = 0 ∧
    gatewayHeartbeatSendTime 41250 0 < 41250 ∧
    handshakeHeartbeatSendTime 41250 0 = 41250 := by decide

/-- C7 amended: the gateway heartbeat loop does not skip its first timer
tick: the n-th heartbeat is sent n intervals after the loop starts (the
first immediately), and each tick of the live heartbeat task sends one
heartbeat frame carrying the current `last_sequence`. -/
theorem gateway_heartbeat_every_interval (interval_ms n : Nat) (st : SessionRun)
    (h : st.hbAlive = true) :
    gatewayHeartbeatSendTime interval_ms n = n * interval_ms ∧
    (sessStep st (.hbTick true)).sentHeartbeats =
      st.sentHeartbeats ++ [heartbeatJson st.ctx.last_sequence] := by
  refine ⟨rfl, ?_⟩
  simp [sessStep, h]

/-- C7 witness: the amended cadence at interval 41250, tick 1, from the
initial Connected state. -/
theorem gateway_heartbeat_every_interval_witness :
    initialRun.hbAlive = true ∧
    (gatewayHeartbeatSendTime 41250 1 = 1 * 41250 ∧
     (sessStep initialRun (.hbTick true)).sentHeartbeats =
       initialRun.sentHeartbeats ++ [heartbeatJson initialRun.ctx.last_sequence]) :=
  ⟨rfl, gateway_heartbeat_every_interval 41250 1 initialRun rfl⟩

/-! C3: idempotence of the ignore paths. -/

/-- C3 counterexample: a dispatch frame with the unrecognized type tag
TYPING_START that carries `s = 7` emits no event but does mutate
`last_sequence` (from none to 7), because handle_message applies the
sequence update before examining the opcode and type tag. -/
theorem dispatch_ignore_path_updates_last_sequence :
    initialContext.last_sequence = none ∧
    (handleMessage unknownDispatchJson initialContext).1.last_sequence = some 7 ∧
    (handleMessage unknownDispatchJson initialContext).2 = none := by
  refine ⟨rfl, ?_, ?_⟩ <;> rfl

/-- C3 amended: a heartbeat_ack frame or a dispatch frame with an
unrecognized (or absent) type tag leaves `session_id` unchanged and emits no
domain event; `last_sequence` is unchanged when the frame carries no `s`
field, but is set to `s` when present, since sequence tracking applies to
every frame before the opcode is examined. -/
theorem ignore_paths_preserve_session_state (j : Json) (ctx : SessionContext)
    (p : GatewayPayload) (hp : parseGatewayPayload j = some p)
    (hop : p.op = opcodeHeartbeatAck ∨
      (p.op = opcodeDispatch ∧ ∀ ty, p.t = some ty → isKnownDispatchType ty = false)) :
    (handleMessage j ctx).1.session_id = ctx.session_id ∧
    (handleMessage j ctx).2 = none ∧
    (handleMessage j ctx).1.last_sequence =
      (match p.s with | some n => some n | none => ctx.last_sequence) := by
  unfold handleMessage
  rw [hp]
  rcases hop with h | ⟨h0, hunk⟩
  · have hne : ¬ p.op = opcodeDispatch := by
      rw [h]; decide
    cases hs : p.s <;> simp [hne, hs]
  · cases ht : p.t with
    | none => cases hs : p.s <;> simp [h0, ht, hs, opcodeDispatch]
    | some ty =>
      cases hd : p.d with
      | none => cases hs : p.s <;> simp [h0, ht, hd, hs, opcodeDispatch]
      | some d =>
        have hu := handleDispatch_unknown ty d
        cases hs : p.s <;>
          simp [h0, ht, hd, hs, opcodeDispatch, hu _ (hunk ty ht)]

/-- C3 witness: the amended statement at a heartbeat_ack frame carrying
`s = 3`, from the initial context. -/
theorem ignore_paths_preserve_session_state_witness :
    parseGatewayPayload hbAckJson = some hbAckPayload ∧
    (hbAckPayload.op = opcodeHeartbeatAck ∨
      (hbAckPayload.op = opcodeDispatch ∧
        ∀ ty, hbAckPayload.t = some ty → isKnownDispatchType ty = false)) ∧
    ((handleMessage hbAckJson initialContext).1.session_id = initialContext.session_id ∧
     (handleMessage hbAckJson initialContext).2 = none ∧
     (handleMessage hbAckJson initialContext).1.last_sequence =
       (match hbAckPayload.s with | some n => some n | none => initialContext.last_sequence)) :=
  ⟨rfl, Or.inl rfl,
    ignore_paths_preserve_session_state hbAckJson initialContext hbAckPayload rfl (Or.inl rfl)⟩

/-! C8 and C9: wait_for_hello. -/

/-- Items that wait_for_hello passes over without effect: non-text stream
items, and text frames that parse to an envelope with a non-Hello opcode. -/
def skippedBeforeHello : WsItem → Bool
  | .text j =>
    match parseGatewayPayload j with
    | some p => p.op != opcodeHello
    | none => false
  | .close => true
  | .other => true
  | .errItem => true

/-- wait_for_hello fails with the no-hello error on any stream of skippable
items that reaches the end without a Hello frame. -/
lemma waitForHello_all_skipped (fs : List WsItem)
    (h : fs.all skippedBeforeHello = true) :
    waitForHello fs = Except.error "Failed to receive Hello from Gateway" := by
  induction fs with
  | nil => rfl
  | cons w rest ih =>
    rw [List.all_cons, Bool.and_eq_true] at h
    cases w with
    | text j =>
      have hw := h.1
      unfold waitForHello
      cases hq : parseGatewayPayload j with
      | none => simp [skippedBeforeHello, hq] at hw
      | some p =>
        have hne : ¬ p.op = opcodeHello := by
          simp only [skippedBeforeHello, hq, bne_iff_ne, ne_eq] at hw
          exact hw
        simp [hne, ih h.2]
    | close => exact ih h.2
    | other => exact ih h.2
    | errItem => exact ih h.2

/-- C8: for every inbound stream made of skippable items followed by a frame
with opcode Hello carrying an integer heartbeat_interval, wait_for_hello
returns exactly that interval; and a stream that closes without any Hello
frame fails with the no-hello error. -/
theorem wait_for_hello_returns_interval (pre : List WsItem) (j : Json)
    (rest : List WsItem) (p : GatewayPayload) (d : Json) (hd : HelloData)
    (h1 : pre.all skippedBeforeHello = true)
    (h2 : parseGatewayPayload j = some p) (h3 : p.op = opcodeHello)
    (h4 : p.d = some d) (h5 : parseHelloData d = some hd) :
    waitForHello (pre ++ WsItem.text j :: rest) = Except.ok hd.heartbeat_interval ∧
    ∀ fs : List WsItem, fs.all skippedBeforeHello = true →
      waitForHello fs = Except.error "Failed to receive Hello from Gateway" := by
  refine ⟨?_, fun fs hfs => waitForHello_all_skipped fs hfs⟩
  induction pre with
  | nil =>
    simp only [List.nil_append]
    unfold waitForHello
    rw [h2]
    simp [h3, h4, h5]
  | cons w pres ih =>
    rw [List.all_cons, Bool.and_eq_true] at h1
    cases w with
    | text j2 =>
      have hw := h1.1
      rw [List.cons_append]
      unfold waitForHello
      cases hq : parseGatewayPayload j2 with
      | none => simp [skippedBeforeHello, hq] at hw
      | some p2 =>
        have hne : ¬ p2.op = opcodeHello := by
          simp only [skippedBeforeHello, hq, bne_iff_ne, ne_eq] at hw
          exact hw
        simp [hne, ih h1.2]
    | close => rw [List.cons_append]; exact ih h1.2
    | other => rw [List.cons_append]; exact ih h1.2
    | errItem => rw [List.cons_append]; exact ih h1.2

/-- C8 witness: a heartbeat-ack, a Close frame and a transport error item
before a Hello with interval 41250 are all skipped and the interval is
returned; and the no-hello conjunct instantiated. -/
theorem wait_for_hello_returns_interval_witness :
    ([WsItem.other, WsItem.text nonHelloJson, WsItem.close,
       WsItem.errItem].all skippedBeforeHello = true) ∧
    parseGatewayPayload helloFrameJson = some helloFramePayload ∧
    helloFramePayload.op = opcodeHello ∧
    helloFramePayload.d = some (.obj [("heartbeat_interval", .num 41250)]) ∧
    parseHelloData (.obj [("heartbeat_interval", .num 41250)]) = some ⟨41250⟩ ∧
    (waitForHello ([WsItem.other, WsItem.text nonHelloJson, WsItem.close,
        WsItem.errItem] ++ WsItem.text helloFrameJson :: []) =
      Except.ok (HelloData.mk 41250).heartbeat_interval ∧
     ∀ fs : List WsItem, fs.all skippedBeforeHello = true →
       waitForHello fs = Except.error "Failed to receive Hello from Gateway") :=
  ⟨rfl, rfl, rfl, rfl, rfl,
    wait_for_hello_returns_interval _ helloFrameJson [] helloFramePayload _ ⟨41250⟩
      rfl rfl rfl rfl rfl⟩

/-- C9: a text frame that fails to parse as a gateway envelope aborts
wait_for_hello with the parse error immediately, while a well-formed frame
with a non-Hello opcode is skipped without effect. -/
theorem unparseable_frame_before_hello_fatal (j : Json) (rest : List WsItem)
    (h : parseGatewayPayload j = none) :
    waitForHello (WsItem.text j :: rest) = Except.error "Failed to parse Hello payload" ∧
    ∀ (j2 : Json) (p : GatewayPayload) (rest2 : List WsItem),
      parseGatewayPayload j2 = some p → ¬ p.op = opcodeHello →
      waitForHello (WsItem.text j2 :: rest2) = waitForHello rest2 := by
  constructor
  · unfold waitForHello
    rw [h]
  · intro j2 p rest2 hp hop
    conv_lhs => rw [waitForHello.eq_def]
    simp [hp, hop]

/-- C9 witness: a bare string frame (not an envelope) is fatal at the head
of the stream. -/
theorem unparseable_frame_before_hello_fatal_witness :
    parseGatewayPayload (Json.str "garbage") = none ∧
    (waitForHello (WsItem.text (Json.str "garbage") :: []) =
       Except.error "Failed to parse Hello payload" ∧
     ∀ (j2 : Json) (p : GatewayPayload) (rest2 : List WsItem),
       parseGatewayPayload j2 = some p → ¬ p.op = opcodeHello →
       waitForHello (WsItem.text j2 :: rest2) = waitForHello rest2) :=
  ⟨rfl, unparseable_frame_before_hello_fatal (Json.str "garbage") [] rfl⟩

/-! C4: malformed-dispatch tolerance. -/

/-- C4: a dispatch frame whose payload fails to decode into its typed event
is dropped without emitting an event and without terminating the session:
the events of the run are exactly the events of the remaining frames,
processed from the post-frame context. -/
theorem malformed_dispatch_frame_dropped (j : Json) (ctx : SessionContext)
    (p : GatewayPayload) (rest : List WsItem)
    (_hp : parseGatewayPayload j = some p) (_hop : p.op = opcodeDispatch)
    (hdrop : (handleMessage j ctx).2 = none) :
    (runFrames ctx (WsItem.text j :: rest)).2 =
      (runFrames (handleMessage j ctx).1 rest).2 := by
  simp [runFrames, hdrop]

/-- C4 witness: the spec's malformed MESSAGE_CREATE (author missing) is
dropped, and the following valid MESSAGE_CREATE still produces its event. -/
theorem malformed_dispatch_frame_dropped_witness :
    parseGatewayPayload malformedDispatchJson = some malformedDispatchPayload ∧
    malformedDispatchPayload.op = opcodeDispatch ∧
    (handleMessage malformedDispatchJson initialContext).2 = none ∧
    (runFrames initialContext
        (WsItem.text malformedDispatchJson :: [WsItem.text mcJson])).2 =
      (runFrames (handleMessage malformedDispatchJson initialContext).1
        [WsItem.text mcJson]).2 ∧
    (runFrames (handleMessage malformedDispatchJson initialContext).1
        [WsItem.text mcJson]).2 = [GatewayEvent.messageCreate mcMessage] :=
  ⟨rfl, rfl, rfl,
    malformed_dispatch_frame_dropped malformedDispatchJson initialContext
      malformedDispatchPayload [WsItem.text mcJson] rfl rfl rfl, rfl⟩

/-! C5: heartbeat-failure fatality. -/

/-- C5 counterexample: after a heartbeat send failure the heartbeat task is
dead, yet the run has not returned — a subsequent valid inbound frame is
still dispatched and produces its event, because heartbeat_loop runs as a
detached spawned task whose break does not stop the read loop of run. -/
theorem heartbeat_send_failure_session_continues :
    (runTrace initialRun
        [SessAct.hbTick false, SessAct.inbound (WsItem.text mcJson)]).hbAlive = false ∧
    (runTrace initialRun
        [SessAct.hbTick false, SessAct.inbound (WsItem.text mcJson)]).readOpen = true ∧
    (runTrace initialRun
        [SessAct.hbTick false, SessAct.inbound (WsItem.text mcJson)]).events =
      [GatewayEvent.messageCreate mcMessage] := by
  refine ⟨rfl, rfl, rfl⟩

/-- A dead heartbeat task stays dead under any single step, and an inbound
step never touches the sent-heartbeat log. -/
lemma sessStep_preserves_dead_heartbeat (st : SessionRun) (a : SessAct)
    (h : st.hbAlive = false) :
    (sessStep st a).hbAlive = false ∧
    (sessStep st a).sentHeartbeats = st.sentHeartbeats := by
  cases a with
  | hbTick b => simp [sessStep, h]
  | inbound w =>
    cases w <;> simp only [sessStep] <;> split <;> simp [h]

/-- C5 amended: a heartbeat send failure permanently stops the heartbeat
loop — from any state whose heartbeat task is dead, the rest of the run is
exactly the run of its inbound items alone (heartbeat ticks are no-ops) and
no further heartbeat is ever sent — but the read loop continues to process
inbound frames. -/
theorem heartbeat_send_failure_stops_heartbeats_only (st : SessionRun)
    (acts : List SessAct) (h : st.hbAlive = false) :
    runTrace st acts = runTrace st (acts.filter isInboundAct) ∧
    (runTrace st acts).sentHeartbeats = st.sentHeartbeats := by
  induction acts generalizing st with
  | nil => exact ⟨rfl, rfl⟩
  | cons a rest ih =>
    have hpres := sessStep_preserves_dead_heartbeat st a h
    have hrec := ih (sessStep st a) hpres.1
    cases a with
    | hbTick b =>
      have hid : sessStep st (.hbTick b) = st := by
        simp [sessStep, h]
      constructor
      · rw [List.filter_cons_of_neg (by simp [isInboundAct])]
        show runTrace (sessStep st (.hbTick b)) rest = _
        rw [hid]
        exact (ih st h).1
      · show (runTrace (sessStep st (.hbTick b)) rest).sentHeartbeats = _
        rw [hid]
        exact (ih st h).2
    | inbound w =>
      constructor
      · rw [List.filter_cons_of_pos (by simp [isInboundAct])]
        show runTrace (sessStep st (.inbound w)) rest = _
        rw [hrec.1]
        rfl
      · show (runTrace (sessStep st (.inbound w)) rest).sentHeartbeats = _
        rw [hrec.2, hpres.2]

/-- C5 witness: from a state with a dead heartbeat task, a schedule with one
tick and one inbound frame behaves as the inbound frame alone and sends
nothing. -/
theorem heartbeat_send_failure_stops_heartbeats_only_witness :
    deadHeartbeatRun.hbAlive = false ∧
    (runTrace deadHeartbeatRun
        [SessAct.hbTick true, SessAct.inbound (WsItem.text mcJson)] =
      runTrace deadHeartbeatRun
        ([SessAct.hbTick true, SessAct.inbound (WsItem.text mcJson)].filter isInboundAct) ∧
     (runTrace deadHeartbeatRun
        [SessAct.hbTick true, SessAct.inbound (WsItem.text mcJson)]).sentHeartbeats =
       deadHeartbeatRun.sentHeartbeats) :=
  ⟨rfl, heartbeat_send_failure_stops_heartbeats_only deadHeartbeatRun
    [SessAct.hbTick true, SessAct.inbound (WsItem.text mcJson)] rfl⟩

/-! C10: GUILD_CREATE channel filtering. -/

/-- Every channel kept by the GUILD_CREATE channel-list construction is a
text channel (type 0) and arises from a payload entry that deserializes as a
Channel, with the guild's id substituted when its own guild_id was absent. -/
lemma buildChannelList_mem (gid : String) (chans : List Json) (c : Channel)
    (hc : c ∈ buildChannelList gid chans) :
    c.channel_type = 0 ∧
    ∃ cj ∈ chans, ∃ c0, parseChannel cj = some c0 ∧
      c = (if c0.guild_id.isNone then { c0 with guild_id := some gid } else c0) := by
  induction chans with
  | nil => simp [buildChannelList] at hc
  | cons cj rest ih =>
    unfold buildChannelList at hc
    cases hq : parseChannel cj with
    | none =>
      rw [hq] at hc
      obtain ⟨ht, cj2, hmem, hrest⟩ := ih hc
      exact ⟨ht, cj2, List.mem_cons_of_mem _ hmem, hrest⟩
    | some c0 =>
      rw [hq] at hc
      dsimp only at hc
      by_cases htype :
          (if c0.guild_id.isNone then { c0 with guild_id := some gid } else c0).channel_type = 0
      · rw [if_pos htype, List.mem_cons] at hc
        cases hc with
        | inl he =>
          subst he
          exact ⟨htype, cj, List.mem_cons_self _ _, c0, hq, rfl⟩
        | inr hmem =>
          obtain ⟨ht, cj2, hmem2, hrest⟩ := ih hmem
          exact ⟨ht, cj2, List.mem_cons_of_mem _ hmem2, hrest⟩
      · rw [if_neg htype] at hc
        obtain ⟨ht, cj2, hmem2, hrest⟩ := ih hc
        exact ⟨ht, cj2, List.mem_cons_of_mem _ hmem2, hrest⟩

/-- C10: a GUILD_CREATE dispatch whose required fields are present emits a
GuildCreate event whose channel list keeps only payload channels of type 0
(all other channel types are excluded), and every kept channel whose
guild_id was absent in the payload carries the enclosing guild's id. -/
theorem guild_create_filters_text_channels (d : Json) (ctx : SessionContext)
    (gid gname owner : String) (chans : List Json)
    (hid : d.get "id" = some (.str gid))
    (hname : d.get "name" = some (.str gname))
    (hown : d.get "owner_id" = some (.str owner))
    (hch : d.get "channels" = some (.arr chans)) :
    handleDispatch "GUILD_CREATE" d ctx =
      (ctx, some (.guildCreate ⟨gid, gname, (d.get "icon").bind Json.asStr, owner⟩
        (buildChannelList gid chans))) ∧
    ∀ c ∈ buildChannelList gid chans, c.channel_type = 0 ∧
      ∃ cj ∈ chans, ∃ c0, parseChannel cj = some c0 ∧
        c = (if c0.guild_id.isNone then { c0 with guild_id := some gid } else c0) := by
  constructor
  · unfold handleDispatch
    simp [hid, hname, hown, hch, Json.asStr, Json.asArr]
  · intro c hc
    exact buildChannelList_mem gid chans c hc

/-- C10 witness: the concrete GUILD_CREATE payload keeps the two text
channels, assigns the guild id to the one lacking it and keeps the preset
guild id of the other, and excludes the voice channel and the unparseable
entry. -/
theorem guild_create_filters_text_channels_witness :
    guildCreateData.get "id" = some (.str "g1") ∧
    guildCreateData.get "name" = some (.str "Guild") ∧
    guildCreateData.get "owner_id" = some (.str "o1") ∧
    guildCreateData.get "channels" = some (.arr guildCreateChans) ∧
    (handleDispatch "GUILD_CREATE" guildCreateData initialContext =
      (initialContext,
        some (.guildCreate ⟨"g1", "Guild", (guildCreateData.get "icon").bind Json.asStr, "o1"⟩
          (buildChannelList "g1" guildCreateChans))) ∧
     ∀ c ∈ buildChannelList "g1" guildCreateChans, c.channel_type = 0 ∧
       ∃ cj ∈ guildCreateChans, ∃ c0, parseChannel cj = some c0 ∧
         c = (if c0.guild_id.isNone then { c0 with guild_id := some "g1" } else c0)) ∧
    buildChannelList "g1" guildCreateChans =
      [⟨"c1", 0, some "g1", some "general", none, none, none⟩,
       ⟨"c3", 0, some "gX", none, none, none, none⟩] :=
  ⟨rfl, rfl, rfl, rfl,
    guild_create_filters_text_channels guildCreateData initialContext
      "g1" "Guild" "o1" guildCreateChans rfl rfl rfl rfl, rfl⟩

/-! C1: handshake happy path. -/

/-- The select loop recursion on a continuing step. -/
lemma runAuthLoop_cons_inl (prims : CryptoPrims)
    (exch : String → Except ExchangeErr String) (st st2 : AuthLoopState)
    (i : AuthIn) (rest : List AuthIn)
    (h : authStep prims exch st i = .inl st2) :
    runAuthLoop prims exch st (i :: rest) = runAuthLoop prims exch st2 rest := by
  simp [runAuthLoop, h]

/-- The select loop recursion on a finishing step. -/
lemma runAuthLoop_cons_inr (prims : CryptoPrims)
    (exch : String → Except ExchangeErr String) (st st2 : AuthLoopState)
    (out : AuthOutcome) (i : AuthIn) (rest : List AuthIn)
    (h : authStep prims exch st i = .inr (st2, out)) :
    runAuthLoop prims exch st (i :: rest) = (st2, some out) := by
  simp [runAuthLoop, h]

/-- Parsing a two-field wire message whose first field is the op tag. -/
lemma parseRemoteAuthMessage_two (op k : String) (v : Json) (hk : k ≠ "op") :
    parseRemoteAuthMessage (.obj [("op", .str op), (k, v)]) =
      some ⟨op, .obj [(k, v)]⟩ := by
  simp [parseRemoteAuthMessage, eraseField, Json.get, lookupField, Json.asStr, hk]

/-- Parsing a wire message that carries only the op tag. -/
lemma parseRemoteAuthMessage_one (op : String) :
    parseRemoteAuthMessage (.obj [("op", .str op)]) = some ⟨op, .obj []⟩ := by
  simp [parseRemoteAuthMessage, eraseField, Json.get, lookupField, Json.asStr]

/-- Reading a string field out of a one-field object. -/
lemma getStr_one (k : String) (s : String) :
    ((Json.obj [(k, .str s)]).get k).bind Json.asStr = some s := by
  simp [Json.get, lookupField, Json.asStr]

/-- Reading the heartbeat_interval of the hello message. -/
lemma helloIntervalField (T : Nat) (hT : T < 2 ^ 64) :
    ((Json.obj [("heartbeat_interval", Json.num (T : Int))]).get
        "heartbeat_interval").bind Json.asU64 = some T := by
  have hg : (Json.obj [("heartbeat_interval", Json.num (T : Int))]).get
      "heartbeat_interval" = some (Json.num (T : Int)) := by
    simp [Json.get, lookupField]
  have hc1 : (0 : Int) ≤ (T : Int) := Int.ofNat_nonneg T
  have hc2 : (T : Int) < 2 ^ 64 := by exact_mod_cast hT
  have hT2 : T < 18446744073709551616 := lt_of_lt_of_eq hT (by norm_num)
  have ha : Json.asU64 (.num (T : Int)) = some T := by
    simp [Json.asU64, hc1, hc2, hT2]
  rw [hg, Option.some_bind, ha]

/-- The hello phase on a parsed hello message reduces to the interval
check. -/
lemma helloPhase_parsed (j : Json) (d : Json)
    (hp : parseRemoteAuthMessage j = some ⟨"hello", d⟩)
    (T : Nat) (hiv : (d.get "heartbeat_interval").bind Json.asU64 = some T) :
    helloPhase j = .ok T := by
  unfold helloPhase
  rw [hp]
  simp only [reduceIte]
  rw [hiv]

/-- The hello frame of the scripted runs passes the hello phase with its
interval. -/
lemma helloPhase_ok (T : Nat) (hT : T < 2 ^ 64) :
    helloPhase (.obj [("op", .str "hello"), ("heartbeat_interval", .num (T : Int))]) =
      .ok T :=
  helloPhase_parsed _ _
    (parseRemoteAuthMessage_two "hello" "heartbeat_interval" (.num (T : Int))
      (by decide))
    T (helloIntervalField T hT)

/-- A frame that passes the hello phase leads into the select loop from the
post-init state. -/
lemma authenticateWithQr_ok (prims : CryptoPrims)
    (exch : String → Except ExchangeErr String) (j : Json) (T : Nat)
    (ins : List AuthIn) (h : helloPhase j = .ok T) :
    authenticateWithQr prims exch j ins =
      runAuthLoop prims exch (postInitState prims) ins := by
  unfold authenticateWithQr
  rw [h]

/-- The hello phase of authenticate_with_qr: a hello frame with an integer
heartbeat_interval leads into the select loop from the post-init state. -/
lemma authenticateWithQr_hello (prims : CryptoPrims)
    (exch : String → Except ExchangeErr String) (T : Nat) (ins : List AuthIn)
    (hT : T < 2 ^ 64) :
    authenticateWithQr prims exch
        (.obj [("op", .str "hello"), ("heartbeat_interval", .num (T : Int))]) ins =
      runAuthLoop prims exch (postInitState prims) ins :=
  authenticateWithQr_ok prims exch _ T ins (helloPhase_ok T hT)

/-- The select loop on a text frame that parses: dispatch on the op tag. -/
lemma authStep_msgText (prims : CryptoPrims)
    (exch : String → Except ExchangeErr String) (st : AuthLoopState)
    (j : Json) (sendOk : Bool) (m : RemoteAuthMessage)
    (h : parseRemoteAuthMessage j = some m) :
    authStep prims exch st (.msgText j sendOk) =
      authMsgStep prims exch st sendOk m := by
  simp only [authStep]
  rw [h]

/-- The select-loop dispatch on a nonce_proof message. -/
lemma authMsgStep_nonce_proof (prims : CryptoPrims)
    (exch : String → Except ExchangeErr String) (st : AuthLoopState)
    (sendOk : Bool) (d : Json) :
    authMsgStep prims exch st sendOk ⟨"nonce_proof", d⟩ =
      nonceProofStep prims st sendOk d := by
  simp [authMsgStep]

/-- The select-loop dispatch on a pending_remote_init message. -/
lemma authMsgStep_pending_remote_init (prims : CryptoPrims)
    (exch : String → Except ExchangeErr String) (st : AuthLoopState)
    (sendOk : Bool) (d : Json) :
    authMsgStep prims exch st sendOk ⟨"pending_remote_init", d⟩ =
      pendingRemoteInitStep st d := by
  simp [authMsgStep]

/-- The select-loop dispatch on a pending_login message. -/
lemma authMsgStep_pending_login (prims : CryptoPrims)
    (exch : String → Except ExchangeErr String) (st : AuthLoopState)
    (sendOk : Bool) (d : Json) :
    authMsgStep prims exch st sendOk ⟨"pending_login", d⟩ =
      pendingLoginStep prims exch st d := by
  simp [authMsgStep]

/-- The select-loop dispatch on a cancel message. -/
lemma authMsgStep_cancel (prims : CryptoPrims)
    (exch : String → Except ExchangeErr String) (st : AuthLoopState)
    (sendOk : Bool) (d : Json) :
    authMsgStep prims exch st sendOk ⟨"cancel", d⟩ =
      .inr (st, .err .cancelled) := by
  simp [authMsgStep]

/-- The nonce_proof arm on a successfully decoded and decrypted nonce:
the proof frame is appended to the sent log and the loop continues. -/
lemma nonceProofStep_run (prims : CryptoPrims) (st : AuthLoopState) (d : Json)
    (ct : String) (ctBytes nonceBytes : List Nat)
    (h0 : (d.get "encrypted_nonce").bind Json.asStr = some ct)
    (h1 : prims.b64decode ct = some ctBytes)
    (h2 : prims.rsaDecrypt ctBytes = some nonceBytes) :
    nonceProofStep prims st true d =
      .inl { st with sent := st.sent ++
        [Json.obj [("op", .str "nonce_proof"),
          ("proof", .str (prims.b64urlNoPad (prims.sha256 nonceBytes)))]] } := by
  unfold nonceProofStep
  rw [h0]
  simp only [h1, h2, if_true]

/-- The pending_remote_init arm on a present fingerprint: the pairing URL is
displayed and the loop continues. -/
lemma pendingRemoteInitStep_run (st : AuthLoopState) (d : Json)
    (fingerprint : String)
    (h0 : (d.get "fingerprint").bind Json.asStr = some fingerprint) :
    pendingRemoteInitStep st d =
      .inl { st with displayed := st.displayed ++
        ["https://discord.com/ra/" ++ fingerprint] } := by
  unfold pendingRemoteInitStep
  rw [h0]

/-- The pending_login arm on a successful exchange and decryption: the
collaborator is called on the ticket and the loop finishes with the
credential. -/
lemma pendingLoginStep_run (prims : CryptoPrims)
    (exch : String → Except ExchangeErr String) (st : AuthLoopState) (d : Json)
    (ticket encTok cred : String) (tokBytes credBytes : List Nat)
    (h0 : (d.get "ticket").bind Json.asStr = some ticket)
    (h3 : exch ticket = .ok encTok)
    (h4 : prims.b64decode encTok = some tokBytes)
    (h5 : prims.rsaDecrypt tokBytes = some credBytes)
    (h6 : prims.utf8Decode credBytes = some cred) :
    pendingLoginStep prims exch st d =
      .inr ({ st with calls := st.calls ++ [ticket] }, .ok cred) := by
  unfold pendingLoginStep
  rw [h0]
  simp only [h3, h4, h5, h6]

/-- The nonce_proof step at the select-loop level. -/
lemma authStep_nonce_proof (prims : CryptoPrims)
    (exch : String → Except ExchangeErr String) (st : AuthLoopState)
    (nonceCt : String) (ctBytes nonceBytes : List Nat)
    (h1 : prims.b64decode nonceCt = some ctBytes)
    (h2 : prims.rsaDecrypt ctBytes = some nonceBytes) :
    authStep prims exch st
        (.msgText (.obj [("op", .str "nonce_proof"),
          ("encrypted_nonce", .str nonceCt)]) true) =
      .inl { st with sent := st.sent ++
        [Json.obj [("op", .str "nonce_proof"),
          ("proof", .str (prims.b64urlNoPad (prims.sha256 nonceBytes)))]] } := by
  rw [authStep_msgText prims exch st _ true _
    (parseRemoteAuthMessage_two "nonce_proof" "encrypted_nonce" (.str nonceCt)
      (by decide))]
  rw [authMsgStep_nonce_proof]
  exact nonceProofStep_run prims st _ nonceCt ctBytes nonceBytes
    (getStr_one "encrypted_nonce" nonceCt) h1 h2

/-- The pending_remote_init step at the select-loop level. -/
lemma authStep_pending_remote_init (prims : CryptoPrims)
    (exch : String → Except ExchangeErr String) (st : AuthLoopState)
    (fingerprint : String) (b : Bool) :
    authStep prims exch st
        (.msgText (.obj [("op", .str "pending_remote_init"),
          ("fingerprint", .str fingerprint)]) b) =
      .inl { st with displayed := st.displayed ++
        ["https://discord.com/ra/" ++ fingerprint] } := by
  rw [authStep_msgText prims exch st _ b _
    (parseRemoteAuthMessage_two "pending_remote_init" "fingerprint"
      (.str fingerprint) (by decide))]
  rw [authMsgStep_pending_remote_init]
  exact pendingRemoteInitStep_run st _ fingerprint (getStr_one "fingerprint" fingerprint)

/-- The pending_login step at the select-loop level. -/
lemma authStep_pending_login (prims : CryptoPrims)
    (exch : String → Except ExchangeErr String) (st : AuthLoopState)
    (ticket encTok cred : String) (tokBytes credBytes : List Nat) (b : Bool)
    (h3 : exch ticket = .ok encTok)
    (h4 : prims.b64decode encTok = some tokBytes)
    (h5 : prims.rsaDecrypt tokBytes = some credBytes)
    (h6 : prims.utf8Decode credBytes = some cred) :
    authStep prims exch st
        (.msgText (.obj [("op", .str "pending_login"), ("ticket", .str ticket)]) b) =
      .inr ({ st with calls := st.calls ++ [ticket] }, .ok cred) := by
  rw [authStep_msgText prims exch st _ b _
    (parseRemoteAuthMessage_two "pending_login" "ticket" (.str ticket) (by decide))]
  rw [authMsgStep_pending_login]
  exact pendingLoginStep_run prims exch st _ ticket encTok cred tokBytes credBytes
    (getStr_one "ticket" ticket) h3 h4 h5 h6

/-- C1: for every scripted run hello → nonce_proof (an OAEP encryption of a
nonce under the fresh public key) → pending_remote_init → pending_login with
a ticket, where the collaborator returns an encrypted_token that decrypts to
a UTF-8 credential, the handshake sends a nonce_proof whose proof field is
the base64url-no-padding encoding of the SHA-256 digest of the decrypted
nonce bytes, invokes the collaborator on exactly that ticket, displays the
pairing URL built from the fingerprint, and returns exactly that
credential. -/
theorem auth_handshake_happy_path (prims : CryptoPrims)
    (exch : String → Except ExchangeErr String) (T : Nat)
    (nonceCt fingerprint ticket encTok cred : String)
    (ctBytes nonceBytes tokBytes credBytes : List Nat)
    (hT : T < 2 ^ 64)
    (h1 : prims.b64decode nonceCt = some ctBytes)
    (h2 : prims.rsaDecrypt ctBytes = some nonceBytes)
    (h3 : exch ticket = .ok encTok)
    (h4 : prims.b64decode encTok = some tokBytes)
    (h5 : prims.rsaDecrypt tokBytes = some credBytes)
    (h6 : prims.utf8Decode credBytes = some cred) :
    authenticateWithQr prims exch
      (.obj [("op", .str "hello"), ("heartbeat_interval", .num (T : Int))])
      [ .msgText (.obj [("op", .str "nonce_proof"),
          ("encrypted_nonce", .str nonceCt)]) true,
        .msgText (.obj [("op", .str "pending_remote_init"),
          ("fingerprint", .str fingerprint)]) true,
        .msgText (.obj [("op", .str "pending_login"), ("ticket", .str ticket)]) true ] =
      (⟨[initMessage prims,
         .obj [("op", .str "nonce_proof"),
               ("proof", .str (prims.b64urlNoPad (prims.sha256 nonceBytes)))]],
        [ticket],
        ["https://discord.com/ra/" ++ fingerprint]⟩,
       some (.ok cred)) := by
  rw [authenticateWithQr_hello prims exch T _ hT,
    runAuthLoop_cons_inl prims exch _ _ _ _
      (authStep_nonce_proof prims exch _ nonceCt ctBytes nonceBytes h1 h2),
    runAuthLoop_cons_inl prims exch _ _ _ _
      (authStep_pending_remote_init prims exch _ fingerprint true),
    runAuthLoop_cons_inr prims exch _ _ _ _ _
      (authStep_pending_login prims exch _ ticket encTok cred tokBytes credBytes
        true h3 h4 h5 h6)]
  simp [postInitState]

/-- C1 witness: the scripted run with concrete primitives, fingerprint
abc123, ticket T1 and credential "secret-credential". -/
theorem auth_handshake_happy_path_witness :
    (41250 : Nat) < 2 ^ 64 ∧
    cPrims.b64decode "CT" = some [2] ∧
    cPrims.rsaDecrypt [2] = some [2] ∧
    cExch "T1" = .ok "ENC" ∧
    cPrims.b64decode "ENC" = some [3] ∧
    cPrims.rsaDecrypt [3] = some [3] ∧
    cPrims.utf8Decode [3] = some "secret-credential" ∧
    authenticateWithQr cPrims cExch helloAuthJson happyPathIns =
      (⟨[initMessage cPrims,
         .obj [("op", .str "nonce_proof"),
               ("proof", .str (cPrims.b64urlNoPad (cPrims.sha256 [2])))]],
        ["T1"],
        ["https://discord.com/ra/abc123"]⟩,
       some (.ok "secret-credential")) :=
  ⟨by norm_num, rfl, rfl, rfl, rfl, rfl, rfl,
    auth_handshake_happy_path cPrims cExch 41250 "CT" "abc123" "T1" "ENC"
      "secret-credential" [2] [2] [3] [3] (by norm_num) rfl rfl rfl rfl rfl rfl⟩

/-! C2: cancellation. -/

/-- A continuing nonce_proof arm leaves the collaborator-call log
unchanged. -/
lemma nonceProofStep_inl_calls (prims : CryptoPrims) (st : AuthLoopState)
    (sendOk : Bool) (d : Json) (st2 : AuthLoopState)
    (h : nonceProofStep prims st sendOk d = .inl st2) : st2.calls = st.calls := by
  unfold nonceProofStep at h
  repeat' split at h
  all_goals first
    | exact Sum.noConfusion h
    | (injection h with h2; subst h2; rfl)

/-- A continuing pending_remote_init arm leaves the collaborator-call log
unchanged. -/
lemma pendingRemoteInitStep_inl_calls (st : AuthLoopState) (d : Json)
    (st2 : AuthLoopState)
    (h : pendingRemoteInitStep st d = .inl st2) : st2.calls = st.calls := by
  unfold pendingRemoteInitStep at h
  repeat' split at h
  all_goals first
    | exact Sum.noConfusion h
    | (injection h with h2; subst h2; rfl)

/-- The pending_login arm always finishes the loop. -/
lemma pendingLoginStep_no_inl (prims : CryptoPrims)
    (exch : String → Except ExchangeErr String) (st : AuthLoopState) (d : Json)
    (st2 : AuthLoopState) : pendingLoginStep prims exch st d ≠ .inl st2 := by
  unfold pendingLoginStep
  repeat' split
  all_goals simp

/-- A continuing message step leaves the collaborator-call log unchanged. -/
lemma authMsgStep_inl_calls (prims : CryptoPrims)
    (exch : String → Except ExchangeErr String) (st : AuthLoopState)
    (sendOk : Bool) (m : RemoteAuthMessage) (st2 : AuthLoopState)
    (h : authMsgStep prims exch st sendOk m = .inl st2) : st2.calls = st.calls := by
  unfold authMsgStep at h
  split_ifs at h
  all_goals first
    | exact Sum.noConfusion h
    | (injection h with h2; subst h2; rfl)
    | exact nonceProofStep_inl_calls prims st sendOk m.data st2 h
    | exact pendingRemoteInitStep_inl_calls st m.data st2 h
    | exact absurd h (pendingLoginStep_no_inl prims exch st m.data st2)

/-- A continuing select-loop step leaves the collaborator-call log
unchanged. -/
lemma authStep_inl_calls (prims : CryptoPrims)
    (exch : String → Except ExchangeErr String) (st : AuthLoopState)
    (i : AuthIn) (st2 : AuthLoopState)
    (h : authStep prims exch st i = .inl st2) : st2.calls = st.calls := by
  cases i with
  | hbTick b =>
    simp only [authStep] at h
    split at h
    · injection h with h2; subst h2; rfl
    · exact Sum.noConfusion h
  | msgErr e => simp only [authStep] at h; exact Sum.noConfusion h
  | closed => simp only [authStep] at h; exact Sum.noConfusion h
  | msgText j sendOk =>
    simp only [authStep] at h
    cases hq : parseRemoteAuthMessage j with
    | none => rw [hq] at h; exact Sum.noConfusion h
    | some m => rw [hq] at h; exact authMsgStep_inl_calls prims exch st sendOk m st2 h

/-- A run of the select loop that is still waiting has not invoked the
collaborator. -/
lemma runAuthLoop_continue_calls (prims : CryptoPrims)
    (exch : String → Except ExchangeErr String) :
    ∀ (ins : List AuthIn) (st : AuthLoopState),
    (runAuthLoop prims exch st ins).2 = none →
    (runAuthLoop prims exch st ins).1.calls = st.calls := by
  intro ins
  induction ins with
  | nil => intro st h; rfl
  | cons i rest ih =>
    intro st h
    simp only [runAuthLoop] at h ⊢
    cases hs : authStep prims exch st i with
    | inl st2 =>
      rw [hs] at h
      have h2 : (runAuthLoop prims exch st2 rest).2 = none := h
      show (runAuthLoop prims exch st2 rest).1.calls = st.calls
      rw [ih st2 h2, authStep_inl_calls prims exch st i st2 hs]
    | inr pr =>
      obtain ⟨st2, out⟩ := pr
      rw [hs] at h
      simp at h

/-- Splitting a select-loop schedule at a point where the loop is still
waiting. -/
lemma runAuthLoop_append (prims : CryptoPrims)
    (exch : String → Except ExchangeErr String) :
    ∀ (pre rest : List AuthIn) (st : AuthLoopState),
    (runAuthLoop prims exch st pre).2 = none →
    runAuthLoop prims exch st (pre ++ rest) =
      runAuthLoop prims exch (runAuthLoop prims exch st pre).1 rest := by
  intro pre
  induction pre with
  | nil => intro rest st h; rfl
  | cons i pres ih =>
    intro rest st h
    simp only [List.cons_append, runAuthLoop] at h ⊢
    cases hs : authStep prims exch st i with
    | inl st2 =>
      rw [hs] at h
      show runAuthLoop prims exch st2 (pres ++ rest) =
        runAuthLoop prims exch (runAuthLoop prims exch st2 pres).1 rest
      exact ih rest st2 h
    | inr pr =>
      obtain ⟨st2, out⟩ := pr
      rw [hs] at h
      simp at h

/-- A cancel frame finishes the select loop immediately with the
cancellation error, whatever follows it. -/
lemma runAuthLoop_cancel (prims : CryptoPrims)
    (exch : String → Except ExchangeErr String) (st : AuthLoopState) (b : Bool)
    (post : List AuthIn) :
    runAuthLoop prims exch st (AuthIn.msgText cancelJson b :: post) =
      (st, some (.err .cancelled)) := by
  have hp : parseRemoteAuthMessage cancelJson = some ⟨"cancel", .obj []⟩ :=
    parseRemoteAuthMessage_one "cancel"
  have hstep : authStep prims exch st (.msgText cancelJson b) =
      .inr (st, .err .cancelled) := by
    rw [authStep_msgText prims exch st cancelJson b _ hp]
    exact authMsgStep_cancel prims exch st b _
  exact runAuthLoop_cons_inr prims exch st st (.err .cancelled) _ post hstep

/-- A finishing nonce_proof arm never finishes with the cancellation
error. -/
lemma nonceProofStep_ne_cancelled (prims : CryptoPrims) (st : AuthLoopState)
    (sendOk : Bool) (d : Json) (st2 : AuthLoopState) (out : AuthOutcome)
    (h : nonceProofStep prims st sendOk d = .inr (st2, out)) :
    out ≠ .err .cancelled := by
  unfold nonceProofStep at h
  repeat' split at h
  all_goals first
    | exact Sum.noConfusion h
    | (injection h with h2; injection h2 with h3 h4; subst h4; simp)

/-- A finishing pending_remote_init arm never finishes with the cancellation
error. -/
lemma pendingRemoteInitStep_ne_cancelled (st : AuthLoopState) (d : Json)
    (st2 : AuthLoopState) (out : AuthOutcome)
    (h : pendingRemoteInitStep st d = .inr (st2, out)) :
    out ≠ .err .cancelled := by
  unfold pendingRemoteInitStep at h
  repeat' split at h
  all_goals first
    | exact Sum.noConfusion h
    | (injection h with h2; injection h2 with h3 h4; subst h4; simp)

/-- A finishing pending_login arm never finishes with the cancellation
error. -/
lemma pendingLoginStep_ne_cancelled (prims : CryptoPrims)
    (exch : String → Except ExchangeErr String) (st : AuthLoopState) (d : Json)
    (st2 : AuthLoopState) (out : AuthOutcome)
    (h : pendingLoginStep prims exch st d = .inr (st2, out)) :
    out ≠ .err .cancelled := by
  unfold pendingLoginStep at h
  repeat' split at h
  all_goals first
    | exact Sum.noConfusion h
    | (injection h with h2; injection h2 with h3 h4; subst h4; simp)

/-- A message whose tag is not cancel never finishes the loop with the
cancellation error. -/
lemma authMsgStep_ne_cancelled (prims : CryptoPrims)
    (exch : String → Except ExchangeErr String) (st : AuthLoopState)
    (sendOk : Bool) (m : RemoteAuthMessage) (st2 : AuthLoopState)
    (out : AuthOutcome) (hm : m.op ≠ "cancel")
    (h : authMsgStep prims exch st sendOk m = .inr (st2, out)) :
    out ≠ .err .cancelled := by
  unfold authMsgStep at h
  split_ifs at h
  all_goals first
    | exact Sum.noConfusion h
    | exact nonceProofStep_ne_cancelled prims st sendOk m.data st2 out h
    | exact pendingRemoteInitStep_ne_cancelled st m.data st2 out h
    | exact pendingLoginStep_ne_cancelled prims exch st m.data st2 out h

/-- A schedule item that is not a cancel frame never finishes the loop with
the cancellation error. -/
lemma authStep_ne_cancelled (prims : CryptoPrims)
    (exch : String → Except ExchangeErr String) (st : AuthLoopState)
    (i : AuthIn) (st2 : AuthLoopState) (out : AuthOutcome)
    (hni : isCancelFrame i = false)
    (h : authStep prims exch st i = .inr (st2, out)) :
    out ≠ .err .cancelled := by
  cases i with
  | hbTick b =>
    simp only [authStep] at h
    split at h
    · exact Sum.noConfusion h
    · injection h with h2; injection h2 with h3 h4; subst h4; simp
  | msgErr e =>
    simp only [authStep] at h
    injection h with h2; injection h2 with h3 h4; subst h4; simp
  | closed =>
    simp only [authStep] at h
    injection h with h2; injection h2 with h3 h4; subst h4; simp
  | msgText j sendOk =>
    simp only [authStep] at h
    cases hq : parseRemoteAuthMessage j with
    | none =>
      rw [hq] at h
      injection h with h2; injection h2 with h3 h4; subst h4; simp
    | some m =>
      rw [hq] at h
      have hm : m.op ≠ "cancel" := by
        simp only [isCancelFrame, hq] at hni
        exact of_decide_eq_false hni
      exact authMsgStep_ne_cancelled prims exch st sendOk m st2 out hm h

/-- A cancel-free schedule never yields the cancellation error. -/
lemma runAuthLoop_no_cancel (prims : CryptoPrims)
    (exch : String → Except ExchangeErr String) :
    ∀ (ins : List AuthIn) (st : AuthLoopState),
    (ins.all fun i => ! isCancelFrame i) = true →
    (runAuthLoop prims exch st ins).2 ≠ some (.err .cancelled) := by
  intro ins
  induction ins with
  | nil => intro st h; simp [runAuthLoop]
  | cons i rest ih =>
    intro st hall
    rw [List.all_cons, Bool.and_eq_true] at hall
    have hni : isCancelFrame i = false := by
      have h1 := hall.1
      simpa using h1
    simp only [runAuthLoop]
    cases hs : authStep prims exch st i with
    | inl st2 =>
      show (runAuthLoop prims exch st2 rest).2 ≠ some (.err .cancelled)
      exact ih st2 hall.2
    | inr pr =>
      obtain ⟨st2, out⟩ := pr
      intro hcon
      exact authStep_ne_cancelled prims exch st i st2 out hni hs
        (Option.some.inj hcon)

/-- C2: from the post-init state, if the loop is still waiting after a
prefix of the schedule, a cancel frame terminates the handshake with the
cancellation error — an error value no cancel-free schedule can produce, so
it is distinguishable from every protocol or transport failure — and the
ticket-for-token collaborator is never invoked in that run. -/
theorem auth_cancel_distinguished_skips_exchange (prims : CryptoPrims)
    (exch : String → Except ExchangeErr String) (pre post : List AuthIn)
    (b : Bool)
    (h : (runAuthLoop prims exch (postInitState prims) pre).2 = none) :
    (runAuthLoop prims exch (postInitState prims)
        (pre ++ AuthIn.msgText cancelJson b :: post)).2 = some (.err .cancelled) ∧
    (runAuthLoop prims exch (postInitState prims)
        (pre ++ AuthIn.msgText cancelJson b :: post)).1.calls = [] ∧
    ∀ (ins : List AuthIn) (st : AuthLoopState),
      (ins.all fun i => ! isCancelFrame i) = true →
      (runAuthLoop prims exch st ins).2 ≠ some (.err .cancelled) := by
  rw [runAuthLoop_append prims exch pre _ _ h,
    runAuthLoop_cancel prims exch _ b post]
  refine ⟨rfl, ?_, ?_⟩
  · exact runAuthLoop_continue_calls prims exch pre (postInitState prims) h
  · intro ins st hall
    exact runAuthLoop_no_cancel prims exch ins st hall

/-- C2 witness: after one successful heartbeat tick, a cancel frame yields
the cancellation error with no collaborator call. -/
theorem auth_cancel_distinguished_skips_exchange_witness :
    (runAuthLoop cPrims cExch (postInitState cPrims) [AuthIn.hbTick true]).2 = none ∧
    ((runAuthLoop cPrims cExch (postInitState cPrims)
        ([AuthIn.hbTick true] ++ AuthIn.msgText cancelJson true :: [])).2 =
          some (.err .cancelled) ∧
     (runAuthLoop cPrims cExch (postInitState cPrims)
        ([AuthIn.hbTick true] ++ AuthIn.msgText cancelJson true :: [])).1.calls = [] ∧
     ∀ (ins : List AuthIn) (st : AuthLoopState),
       (ins.all fun i => ! isCancelFrame i) = true →
       (runAuthLoop cPrims cExch st ins).2 ≠ some (.err .cancelled)) :=
  ⟨rfl, auth_cancel_distinguished_skips_exchange cPrims cExch
    [AuthIn.hbTick true] [] true rfl⟩

end Hakuhyo
